import Mathlib

/-!
Verification of the ESP32 servo/LED/buzzer firmware
(`src/firmware/common_firmware/src/main.cpp`) against its natural-language
specification.  The definitions below are a shallow embedding of the parts of
the firmware the claims are about: the WebSocket command handler (`ws.onEvent`,
lines 482-570), the non-blocking tone sequencer (`updateToneSequence`,
lines 255-289), the switch-to-sound trigger inside `loop()` (lines 713-720)
and the low-pass servo filter (lines 723-726).

Modelling conventions:
- Arduino `String` values are embedded as `List Char`; `millis()` is passed in
  as an explicit `now : Nat` argument.
- C `int` values are embedded as unbounded `Int` (all values occurring in the
  claims are far below 2^31); the `unsigned long` addition
  `nextToneTime = millis() + dur` keeps the 32-bit wrap via `emod (2^32)`.
- C `float` is embedded as `ℚ`.
- The buzzer LEDC channel is embedded as the pair of fields
  `buzzerFreq`/`buzzerDuty`: `ledcChangeFrequency` sets `buzzerFreq` and
  `ledcWrite` sets `buzzerDuty`.
-/

/-- `isspace` on the characters C's number scanners skip (space, tab, newline,
vertical tab, form feed, carriage return). -/
def isSpaceC (c : Char) : Bool :=
  c == ' ' || c == '\t' || c == '\n' || c == Char.ofNat 11 || c == Char.ofNat 12 || c == '\r'

/-- ASCII decimal digit test used by the embedded C scanners. -/
def isDigitC (c : Char) : Bool :=
  48 ≤ c.toNat && c.toNat ≤ 57

/-- Numeric value of a list of decimal digit characters (most significant first). -/
def natOfDigits (ds : List Char) : Nat :=
  ds.foldl (fun a c => a * 10 + (c.toNat - 48)) 0

/-- Embeds C's `%d` / `atol` integer scan: skip leading whitespace, optional
sign, then a maximal nonempty run of decimal digits.  Returns the value and the
unconsumed remainder, or `none` when no digits are found. -/
def scanInt (l : List Char) : Option (Int × List Char) :=
  let l1 := l.dropWhile isSpaceC
  match l1 with
  | '-' :: r =>
    let ds := r.takeWhile isDigitC
    if ds.isEmpty then none else some (-(natOfDigits ds : Int), r.dropWhile isDigitC)
  | '+' :: r =>
    let ds := r.takeWhile isDigitC
    if ds.isEmpty then none else some ((natOfDigits ds : Int), r.dropWhile isDigitC)
  | _ =>
    let ds := l1.takeWhile isDigitC
    if ds.isEmpty then none else some ((natOfDigits ds : Int), l1.dropWhile isDigitC)

/-- `Arduino String::toInt` (which calls `atol`): the scanned integer, or `0`
when the string does not start with a number. -/
def listToInt (l : List Char) : Int :=
  match scanInt l with
  | none => 0
  | some (i, _) => i

/-- Digits-and-dot body of the `%f` scan, after sign extraction. -/
def scanFloatAux (sign : Int) (l2 : List Char) : Option ℚ :=
  let ds := l2.takeWhile isDigitC
  let r1 := l2.dropWhile isDigitC
  match r1 with
  | '.' :: r2 =>
    let fs := r2.takeWhile isDigitC
    if ds.isEmpty && fs.isEmpty then none
    else some ((sign : ℚ) * ((natOfDigits ds : ℚ) + (natOfDigits fs : ℚ) / (10 : ℚ) ^ fs.length))
  | _ =>
    if ds.isEmpty then none
    else some ((sign : ℚ) * (natOfDigits ds : ℚ))

/-- Embeds `sscanf(s, "%f", &f)` on the plain decimal fixed-point forms the
protocol uses (`[+-]digits[.digits]`, also `.digits`); the exotic `%f` inputs
(exponents, hex floats, inf/nan) do not occur in the command protocol. -/
def scanFloat (l : List Char) : Option ℚ :=
  match l.dropWhile isSpaceC with
  | '-' :: r => scanFloatAux (-1) r
  | '+' :: r => scanFloatAux 1 r
  | l1 => scanFloatAux 1 l1

/-- Result of `sscanf(s, "%d:%d", &idx, &val)` together with the values the C
code observes afterwards.  In the firmware `idx` is initialised to `-1` and
`val` to `0`, so when a field fails to match the caller sees that initial
value; `count` is `sscanf`'s return value. -/
structure ScanDD where
  count : Nat
  idx : Int
  val : Int
  deriving Repr, DecidableEq

/-- Embeds `int idx = -1, val = 0; sscanf(s, "%d:%d", &idx, &val)` as used by
the `servo:` and `led:` branches of the WebSocket handler. -/
def scanDD (s : List Char) : ScanDD :=
  match scanInt s with
  | none => ⟨0, -1, 0⟩
  | some (i, rest) =>
    match rest with
    | ':' :: rest2 =>
      match scanInt rest2 with
      | none => ⟨1, i, 0⟩
      | some (v, _) => ⟨2, i, v⟩
    | _ => ⟨1, i, 0⟩

/-- Index of the first occurrence of `c` in `l`, at position ≥ `off.max 0`, as
an offset from the start of `l`; `-1` when absent.  Embeds Arduino
`String::indexOf(char, fromIndex)` including its `fromIndex >= len()` check
(the firmware only ever passes `-1 + 1 = 0` as a negative-derived start, which
the `Int.toNat` conversion reproduces). -/
def listIndexOf (l : List Char) (c : Char) (off : Int) : Int :=
  let f := off.toNat
  if l.length ≤ f then -1
  else
    match (l.drop f).findIdx? (fun x => x == c) with
    | some k => ((f + k : Nat) : Int)
    | none => -1

/-- Embeds Arduino `String::substring(left, right)`: swaps the bounds if given
in the wrong order, clamps to the string length, and returns the half-open
slice `[left, right)`. -/
def listSubstring (l : List Char) (left right : Nat) : List Char :=
  let a := if right < left then right else left
  let b := if right < left then left else right
  if l.length ≤ a then [] else (l.take (min b l.length)).drop a

/-- Arduino `constrain(x, lo, hi)`. -/
def constrain (x lo hi : Int) : Int :=
  if x < lo then lo else if hi < x then hi else x

/-- Arduino `map(x, in_min, in_max, out_min, out_max)`; C integer division
truncates toward zero, hence `Int.tdiv`. -/
def arduinoMap (x inMin inMax outMin outMax : Int) : Int :=
  Int.tdiv ((x - inMin) * (outMax - outMin)) (inMax - inMin) + outMin

/-- Number of servo channels: `NUM_SERVOS` for
`servoPins[] = {23, 22, 21, 19, 18, 5}`. -/
def numServos : Int := 6

/-- Number of LED channels: `NUM_LEDS` for `ledPins[] = {14, 12, 13}`. -/
def numLeds : Int := 3

/-- The firmware globals the claims are about: actuator targets, the filter
coefficient, the mapping-mode ("poti") flag with its deferred-persistence
bookkeeping, the tone-sequencer cursor, and the buzzer LEDC channel state. -/
structure FirmwareState where
  servoTargets : List Int
  ledStates : List Bool
  filter : ℚ
  potiControl : Bool
  persistPotiPending : Bool
  persistPotiAt : Nat
  soundSequence : List Char
  playSound : Bool
  toneIndex : Nat
  nextToneTime : Nat
  buzzerFreq : Int
  buzzerDuty : Int
  deriving Repr, DecidableEq

/-- Global state right after `setup()`: all servo targets 90, LEDs off,
`filter = 0.9`, mapping mode off (first-boot default), the default stored
sound sequence, sequencer idle, buzzer configured at 1 kHz with duty 0. -/
def initState : FirmwareState where
  servoTargets := [90, 90, 90, 90, 90, 90]
  ledStates := [false, false, false]
  filter := 9 / 10
  potiControl := false
  persistPotiPending := false
  persistPotiAt := 0
  soundSequence := ("440,100,300;0,0,100;660,100,300;".toList)
  playSound := false
  toneIndex := 0
  nextToneTime := 0
  buzzerFreq := 1000
  buzzerDuty := 0

/-- Embeds the WebSocket data-frame handler (`ws.onEvent`, lines 494-569):
the length guard, then the `poti:on` / `poti:off` / `filter:` / `servo:` /
`led:` / `sound:` branches in source order.  `now` is the value `millis()`
would return inside the callback. -/
def handleFrame (now : Nat) (buf : List Char) (st : FirmwareState) : FirmwareState :=
  if buf.length = 0 ∨ 128 < buf.length then st
  else if buf = ("poti:on".toList) then
    if st.potiControl = false then
      { st with potiControl := true, persistPotiPending := true, persistPotiAt := now + 1000 }
    else st
  else if buf = ("poti:off".toList) then
    if st.potiControl = true then
      { st with potiControl := false, persistPotiPending := true, persistPotiAt := now + 1000 }
    else st
  else if buf.take 7 = ("filter:".toList) then
    match scanFloat (buf.drop 7) with
    | some f => if 0 ≤ f ∧ f ≤ 1 then { st with filter := f } else st
    | none => st
  else if buf.take 6 = ("servo:".toList) then
    let r := scanDD (buf.drop 6)
    if 1 ≤ r.count then
      if 0 ≤ r.idx ∧ r.idx < numServos then
        { st with servoTargets := st.servoTargets.set r.idx.toNat (constrain r.val 0 180) }
      else st
    else st
  else if buf.take 4 = ("led:".toList) then
    let r := scanDD (buf.drop 4)
    if 1 ≤ r.count then
      if 0 ≤ r.idx ∧ r.idx < numLeds then
        { st with ledStates := st.ledStates.set r.idx.toNat (decide (0 < r.val)) }
      else st
    else st
  else if buf.take 6 = ("sound:".toList) then
    let payload := buf.drop 6
    if payload.length = 0 then st
    else if 256 < payload.length then st
    else { st with soundSequence := payload, playSound := true, toneIndex := 0 }
  else st

/-- Per-client messages produced by one invocation of the `ws.onEvent`
callback, together with the state it leaves behind. -/
structure WsEffect where
  state : FirmwareState
  sent : List (List Char)
  deriving Repr, DecidableEq

/-- Embeds the whole `ws.onEvent` callback (lines 482-570) for text frames:
the `WS_EVT_CONNECT` branch only logs to the serial port (the former
`potiControl = false` on connect is commented out), and the `WS_EVT_DATA`
branch runs `handleFrame`.  `sent` records every `client->text(...)` call the
handler performs; the handler body contains none, so the translation produces
an empty list on every path. -/
def wsOnEvent (isConnectEvt : Bool) (now : Nat) (frame : List Char) (st : FirmwareState) :
    WsEffect :=
  if isConnectEvt then { state := st, sent := [] }
  else { state := handleFrame now frame st, sent := [] }

/-- The separator scan and field extraction of one tone step
(`updateToneSequence` lines 266-278): the three `indexOf` calls, the
missing-comma check, and the `toInt` conversions of the three substrings;
`none` is the `sep1 == -1 || sep2 == -1` emergency-stop case.  On success it
returns `(freq, vol, dur, next toneIndex)`. -/
def toneStepParse (seq : List Char) (i : Nat) : Option (Int × Int × Int × Nat) :=
  let sep1 := listIndexOf seq ',' ((i : Nat) : Int)
  let sep2 := listIndexOf seq ',' (sep1 + 1)
  let sep3 := listIndexOf seq ';' (sep2 + 1)
  if sep1 = -1 ∨ sep2 = -1 then none
  else
    let freq := listToInt (listSubstring seq i sep1.toNat)
    let vol := listToInt (listSubstring seq (sep1 + 1).toNat sep2.toNat)
    let dur := listToInt
      (listSubstring seq (sep2 + 1).toNat (if sep3 = -1 then seq.length else sep3.toNat))
    let ni := if sep3 = -1 then seq.length else (sep3 + 1).toNat
    some (freq, vol, dur, ni)

/-- Embeds `updateToneSequence()` (lines 255-289).  `now` is `millis()`.
Order of the guards follows the source: not playing / not yet due, then
end-of-sequence (mute, stop, rewind), then the separator scan (missing commas
mute and stop), then the step itself: positive frequency programs the buzzer
at `map(vol, 0, 100, 0, 255)` duty, frequency ≤ 0 mutes; either way the step's
duration is added to the deadline (32-bit unsigned wrap preserved). -/
def updateToneSequence (now : Nat) (st : FirmwareState) : FirmwareState :=
  if st.playSound = false ∨ now < st.nextToneTime then st
  else if st.soundSequence.length ≤ st.toneIndex then
    { st with buzzerDuty := 0, playSound := false, toneIndex := 0 }
  else
    match toneStepParse st.soundSequence st.toneIndex with
    | none => { st with buzzerDuty := 0, playSound := false }
    | some (freq, vol, dur, ni) =>
      if 0 < freq then
        { st with buzzerFreq := freq,
                  buzzerDuty := arduinoMap vol 0 100 0 255,
                  nextToneTime := (((now : Int) + dur).emod (2 ^ 32)).toNat,
                  toneIndex := ni }
      else
        { st with buzzerDuty := 0,
                  nextToneTime := (((now : Int) + dur).emod (2 ^ 32)).toNat,
                  toneIndex := ni }

/-- Embeds the switch-to-sound lines of the mapping-mode block in `loop()`
(lines 681 and 713-720): while `potiControl` is on, a LOW (= 0, active)
switch reading with no sequence playing starts playback of the stored
sequence from the top.  The other mapper assignments in that block write only
`servoTargets`/`ledStates` and cannot affect this trigger. -/
def switchSoundCheck (schalter0 : Int) (st : FirmwareState) : FirmwareState :=
  if st.potiControl = true then
    if schalter0 = 0 ∧ st.playSound = false then
      { st with playSound := true, toneIndex := 0 }
    else st
  else st

/-- One application of the low-pass filter in `loop()` (line 724):
`current = filter * current + (1 - filter) * target`. -/
def loopFilterStep (a target cur : ℚ) : ℚ :=
  a * cur + (1 - a) * target

/-- `n` control-loop ticks of the filter for a constant target. -/
def filterIterate (a target c : ℚ) : Nat → ℚ
  | 0 => c
  | n + 1 => loopFilterStep a target (filterIterate a target c n)

/-- Folding a list of tick times through the tone sequencer. -/
def runTicks (times : List Nat) (st : FirmwareState) : FirmwareState :=
  times.foldl (fun s t => updateToneSequence t s) st

/-- Sequencer cursor right after accepting the specification's example
sequence `1000,80,200;800,60,300;`. -/
def toneDemoStart : FirmwareState :=
  { initState with soundSequence := ("1000,80,200;800,60,300;".toList),
                   playSound := true, toneIndex := 0, nextToneTime := 0 }

/-- Sequencer cursor for a step without comma separators. -/
def malformedDemoStart : FirmwareState :=
  { initState with soundSequence := ("1000".toList),
                   playSound := true, toneIndex := 0, nextToneTime := 0 }

/-- Sequencer cursor for a step whose volume field `200` is outside [0,100]. -/
def volumeDemoStart : FirmwareState :=
  { initState with soundSequence := ("1000,200,100;".toList),
                   playSound := true, toneIndex := 0, nextToneTime := 0 }

/-- Mapping mode on, sequencer idle, a short one-step sequence stored: the
situation right before the digital switch is asserted (reachable by sending
`poti:on` and `sound:100,50,10;` and letting that playback finish). -/
def switchDemoStart : FirmwareState :=
  { initState with potiControl := true, soundSequence := ("100,50,10;".toList),
                   playSound := false }

/-! ### Generic list helpers for the frame dispatch -/

theorem ne_cons_of_head_ne {x y : Char} {xs ys : List Char} (h : x ≠ y) :
    x :: xs ≠ y :: ys := by
  intro he
  injection he with h1 _
  exact h h1

theorem handleFrame_servo_frame (now : Nat) (p : List Char) (st : FirmwareState)
    (hp : p.length ≤ 122) :
    handleFrame now (("servo:".toList) ++ p) st =
      (if 1 ≤ (scanDD p).count then
        if 0 ≤ (scanDD p).idx ∧ (scanDD p).idx < numServos then
          { st with servoTargets :=
              st.servoTargets.set (scanDD p).idx.toNat (constrain (scanDD p).val 0 180) }
        else st
      else st) := by
  have hb : ("servo:".toList) ++ p = 's' :: 'e' :: 'r' :: 'v' :: 'o' :: ':' :: p := rfl
  rw [hb]
  unfold handleFrame
  rw [if_neg (by simp only [List.length_cons]; omega)]
  rw [if_neg (by
    rw [show ("poti:on".toList) = 'p' :: 'o' :: 't' :: 'i' :: ':' :: 'o' :: 'n' :: [] from rfl]
    exact ne_cons_of_head_ne (by decide))]
  rw [if_neg (by
    rw [show ("poti:off".toList) = 'p' :: 'o' :: 't' :: 'i' :: ':' :: 'o' :: 'f' :: 'f' :: [] from rfl]
    exact ne_cons_of_head_ne (by decide))]
  rw [if_neg (by
    rw [show ('s' :: 'e' :: 'r' :: 'v' :: 'o' :: ':' :: p).take 7
          = 's' :: 'e' :: 'r' :: 'v' :: 'o' :: ':' :: p.take 1 from rfl]
    rw [show ("filter:".toList) = 'f' :: 'i' :: 'l' :: 't' :: 'e' :: 'r' :: ':' :: [] from rfl]
    exact ne_cons_of_head_ne (by decide))]
  rw [if_pos (show ('s' :: 'e' :: 'r' :: 'v' :: 'o' :: ':' :: p).take 6 = ("servo:".toList) from rfl)]
  rfl

theorem handleFrame_led_frame (now : Nat) (p : List Char) (st : FirmwareState)
    (hp : p.length ≤ 124) :
    handleFrame now (("led:".toList) ++ p) st =
      (if 1 ≤ (scanDD p).count then
        if 0 ≤ (scanDD p).idx ∧ (scanDD p).idx < numLeds then
          { st with ledStates := st.ledStates.set (scanDD p).idx.toNat (decide (0 < (scanDD p).val)) }
        else st
      else st) := by
  have hb : ("led:".toList) ++ p = 'l' :: 'e' :: 'd' :: ':' :: p := rfl
  rw [hb]
  unfold handleFrame
  rw [if_neg (by simp only [List.length_cons]; omega)]
  rw [if_neg (by
    rw [show ("poti:on".toList) = 'p' :: 'o' :: 't' :: 'i' :: ':' :: 'o' :: 'n' :: [] from rfl]
    exact ne_cons_of_head_ne (by decide))]
  rw [if_neg (by
    rw [show ("poti:off".toList) = 'p' :: 'o' :: 't' :: 'i' :: ':' :: 'o' :: 'f' :: 'f' :: [] from rfl]
    exact ne_cons_of_head_ne (by decide))]
  rw [if_neg (by
    rw [show ('l' :: 'e' :: 'd' :: ':' :: p).take 7 = 'l' :: 'e' :: 'd' :: ':' :: p.take 3 from rfl]
    rw [show ("filter:".toList) = 'f' :: 'i' :: 'l' :: 't' :: 'e' :: 'r' :: ':' :: [] from rfl]
    exact ne_cons_of_head_ne (by decide))]
  rw [if_neg (by
    rw [show ('l' :: 'e' :: 'd' :: ':' :: p).take 6 = 'l' :: 'e' :: 'd' :: ':' :: p.take 2 from rfl]
    rw [show ("servo:".toList) = 's' :: 'e' :: 'r' :: 'v' :: 'o' :: ':' :: [] from rfl]
    exact ne_cons_of_head_ne (by decide))]
  rw [if_pos (show ('l' :: 'e' :: 'd' :: ':' :: p).take 4 = ("led:".toList) from rfl)]
  rfl

theorem handleFrame_filter_frame (now : Nat) (p : List Char) (st : FirmwareState)
    (hp : p.length ≤ 121) :
    handleFrame now (("filter:".toList) ++ p) st =
      (match scanFloat p with
       | some f => if 0 ≤ f ∧ f ≤ 1 then { st with filter := f } else st
       | none => st) := by
  have hb : ("filter:".toList) ++ p = 'f' :: 'i' :: 'l' :: 't' :: 'e' :: 'r' :: ':' :: p := rfl
  rw [hb]
  unfold handleFrame
  rw [if_neg (by simp only [List.length_cons]; omega)]
  rw [if_neg (by
    rw [show ("poti:on".toList) = 'p' :: 'o' :: 't' :: 'i' :: ':' :: 'o' :: 'n' :: [] from rfl]
    exact ne_cons_of_head_ne (by decide))]
  rw [if_neg (by
    rw [show ("poti:off".toList) = 'p' :: 'o' :: 't' :: 'i' :: ':' :: 'o' :: 'f' :: 'f' :: [] from rfl]
    exact ne_cons_of_head_ne (by decide))]
  rw [if_pos (show ('f' :: 'i' :: 'l' :: 't' :: 'e' :: 'r' :: ':' :: p).take 7 = ("filter:".toList) from rfl)]
  rfl

theorem handleFrame_sound_frame (now : Nat) (p : List Char) (st : FirmwareState)
    (hp : p.length ≤ 122) :
    handleFrame now (("sound:".toList) ++ p) st =
      (if p.length = 0 then st
       else if 256 < p.length then st
       else { st with soundSequence := p, playSound := true, toneIndex := 0 }) := by
  have hb : ("sound:".toList) ++ p = 's' :: 'o' :: 'u' :: 'n' :: 'd' :: ':' :: p := rfl
  rw [hb]
  unfold handleFrame
  rw [if_neg (by simp only [List.length_cons]; omega)]
  rw [if_neg (by
    rw [show ("poti:on".toList) = 'p' :: 'o' :: 't' :: 'i' :: ':' :: 'o' :: 'n' :: [] from rfl]
    exact ne_cons_of_head_ne (by decide))]
  rw [if_neg (by
    rw [show ("poti:off".toList) = 'p' :: 'o' :: 't' :: 'i' :: ':' :: 'o' :: 'f' :: 'f' :: [] from rfl]
    exact ne_cons_of_head_ne (by decide))]
  rw [if_neg (by
    rw [show ('s' :: 'o' :: 'u' :: 'n' :: 'd' :: ':' :: p).take 7
          = 's' :: 'o' :: 'u' :: 'n' :: 'd' :: ':' :: p.take 1 from rfl]
    rw [show ("filter:".toList) = 'f' :: 'i' :: 'l' :: 't' :: 'e' :: 'r' :: ':' :: [] from rfl]
    exact ne_cons_of_head_ne (by decide))]
  rw [if_neg (by
    rw [show ('s' :: 'o' :: 'u' :: 'n' :: 'd' :: ':' :: p).take 6
          = 's' :: 'o' :: 'u' :: 'n' :: 'd' :: ':' :: [] from rfl]
    rw [show ("servo:".toList) = 's' :: 'e' :: 'r' :: 'v' :: 'o' :: ':' :: [] from rfl]
    intro he
    injection he with _ he2
    injection he2 with h2 _
    exact absurd h2 (by decide))]
  rw [if_neg (by
    rw [show ('s' :: 'o' :: 'u' :: 'n' :: 'd' :: ':' :: p).take 4
          = 's' :: 'o' :: 'u' :: 'n' :: [] from rfl]
    rw [show ("led:".toList) = 'l' :: 'e' :: 'd' :: ':' :: [] from rfl]
    exact ne_cons_of_head_ne (by decide))]
  rw [if_pos (show ('s' :: 'o' :: 'u' :: 'n' :: 'd' :: ':' :: p).take 6 = ("sound:".toList) from rfl)]
  simp only [List.length_cons]
  rfl

/-! ### Shared lemmas about the tone sequencer and the filter -/

theorem updateToneSequence_waiting (now : Nat) (st : FirmwareState)
    (h : st.playSound = false ∨ now < st.nextToneTime) :
    updateToneSequence now st = st := by
  unfold updateToneSequence
  rw [if_pos h]

theorem updateToneSequence_step (now : Nat) (st : FirmwareState)
    (freq vol dur : Int) (ni : Nat)
    (hplay : st.playSound = true) (hdue : st.nextToneTime ≤ now)
    (hidx : st.toneIndex < st.soundSequence.length)
    (hparse : toneStepParse st.soundSequence st.toneIndex = some (freq, vol, dur, ni)) :
    updateToneSequence now st =
      (if 0 < freq then
        { st with buzzerFreq := freq,
                  buzzerDuty := arduinoMap vol 0 100 0 255,
                  nextToneTime := (((now : Int) + dur).emod (2 ^ 32)).toNat,
                  toneIndex := ni }
      else
        { st with buzzerDuty := 0,
                  nextToneTime := (((now : Int) + dur).emod (2 ^ 32)).toNat,
                  toneIndex := ni }) := by
  unfold updateToneSequence
  rw [if_neg (by
    rw [hplay]
    push_neg
    exact ⟨by decide, by omega⟩)]
  rw [if_neg (by omega)]
  rw [hparse]

theorem updateToneSequence_malformed (now : Nat) (st : FirmwareState)
    (hplay : st.playSound = true) (hdue : st.nextToneTime ≤ now)
    (hidx : st.toneIndex < st.soundSequence.length)
    (hparse : toneStepParse st.soundSequence st.toneIndex = none) :
    updateToneSequence now st = { st with buzzerDuty := 0, playSound := false } := by
  unfold updateToneSequence
  rw [if_neg (by
    rw [hplay]
    push_neg
    exact ⟨by decide, by omega⟩)]
  rw [if_neg (by omega)]
  rw [hparse]

theorem loopFilterStep_between_le (a T x : ℚ) (h0 : 0 ≤ a) (h1 : a ≤ 1) (hx : x ≤ T) :
    x ≤ loopFilterStep a T x ∧ loopFilterStep a T x ≤ T := by
  unfold loopFilterStep
  constructor
  · nlinarith [mul_nonneg (sub_nonneg.mpr h1) (sub_nonneg.mpr hx)]
  · nlinarith [mul_nonneg h0 (sub_nonneg.mpr hx)]

theorem loopFilterStep_between_ge (a T x : ℚ) (h0 : 0 ≤ a) (h1 : a ≤ 1) (hx : T ≤ x) :
    T ≤ loopFilterStep a T x ∧ loopFilterStep a T x ≤ x := by
  unfold loopFilterStep
  constructor
  · nlinarith [mul_nonneg h0 (sub_nonneg.mpr hx)]
  · nlinarith [mul_nonneg (sub_nonneg.mpr h1) (sub_nonneg.mpr hx)]

theorem filterIterate_le (a T C : ℚ) (h0 : 0 ≤ a) (h1 : a ≤ 1) (hC : C ≤ T) :
    ∀ n, filterIterate a T C n ≤ T := by
  intro n
  induction n with
  | zero => exact hC
  | succ n ih => exact (loopFilterStep_between_le a T _ h0 h1 ih).2

theorem filterIterate_ge (a T C : ℚ) (h0 : 0 ≤ a) (h1 : a ≤ 1) (hC : T ≤ C) :
    ∀ n, T ≤ filterIterate a T C n := by
  intro n
  induction n with
  | zero => exact hC
  | succ n ih => exact (loopFilterStep_between_ge a T _ h0 h1 ih).1


/-! ### Claims -/

/-- C1: a `servo:<idx>:<angle>` frame in which both integers parse stores the
angle clamped to [0,180] at channel `idx` when `0 ≤ idx < NUM_SERVOS`, and
changes nothing when `idx` is negative or at least the channel count; the
clamped value is always within [0,180]. -/
theorem servo_command_clamps_and_drops (now : Nat) (p : List Char) (st : FirmwareState)
    (idx val : Int) (hp : p.length ≤ 122) (hscan : scanDD p = ⟨2, idx, val⟩) :
    (0 ≤ idx → idx < numServos →
      handleFrame now (("servo:".toList) ++ p) st =
        { st with servoTargets := st.servoTargets.set idx.toNat (constrain val 0 180) }) ∧
    ((idx < 0 ∨ numServos ≤ idx) →
      handleFrame now (("servo:".toList) ++ p) st = st) ∧
    (0 ≤ constrain val 0 180 ∧ constrain val 0 180 ≤ 180) := by
  rw [handleFrame_servo_frame now p st hp, hscan]
  refine ⟨?_, ?_, ?_⟩
  · intro h0 h1
    rw [if_pos (show 1 ≤ (ScanDD.mk 2 idx val).count from Nat.succ_le_succ (Nat.zero_le 1))]
    rw [if_pos (show 0 ≤ (ScanDD.mk 2 idx val).idx ∧ (ScanDD.mk 2 idx val).idx < numServos
      from ⟨h0, h1⟩)]
  · intro h
    simp only [numServos] at h
    rw [if_pos (show 1 ≤ (ScanDD.mk 2 idx val).count from Nat.succ_le_succ (Nat.zero_le 1))]
    rw [if_neg (show ¬(0 ≤ (ScanDD.mk 2 idx val).idx ∧ (ScanDD.mk 2 idx val).idx < numServos)
      from by
        simp only [numServos]
        show ¬(0 ≤ idx ∧ idx < 6)
        omega)]
  · unfold constrain
    split_ifs <;> omega

/-- Witness for C1 at the concrete frames `servo:2:200` (clamped to 180) and
`servo:9:50` (index out of range, dropped). -/
theorem servo_command_clamps_and_drops_witness :
    handleFrame 0 (("servo:".toList) ++ ("2:200".toList)) initState =
      { initState with servoTargets := [90, 90, 180, 90, 90, 90] } ∧
    handleFrame 0 (("servo:".toList) ++ ("9:50".toList)) initState = initState := by
  constructor
  · have h := (servo_command_clamps_and_drops 0 ("2:200".toList) initState 2 200
      (by decide) (by decide)).1 (by decide) (by decide)
    rw [h]
    rfl
  · exact (servo_command_clamps_and_drops 0 ("9:50".toList) initState 9 50
      (by decide) (by decide)).2.1 (Or.inr (by decide))

/-- C3: an accepted `sound:<payload>` frame received while a sequence plays
replaces the cursor at once — sequence set to the payload, step index reset to
0, playing flag set — and every subsequent run of sequencer ticks behaves
exactly as from that fresh cursor, so no step of the old sequence's remainder
can ever be activated again. -/
theorem sound_command_replaces_cursor (now : Nat) (p : List Char) (st : FirmwareState)
    (_hplay : st.playSound = true) (h1 : 1 ≤ p.length) (h2 : p.length ≤ 122) :
    handleFrame now (("sound:".toList) ++ p) st =
      { st with soundSequence := p, playSound := true, toneIndex := 0 } ∧
    ∀ ts : List Nat,
      runTicks ts (handleFrame now (("sound:".toList) ++ p) st) =
        runTicks ts { st with soundSequence := p, playSound := true, toneIndex := 0 } := by
  have he : handleFrame now (("sound:".toList) ++ p) st =
      { st with soundSequence := p, playSound := true, toneIndex := 0 } := by
    rw [handleFrame_sound_frame now p st h2]
    rw [if_neg (show ¬p.length = 0 from by omega)]
    rw [if_neg (show ¬256 < p.length from by omega)]
  exact ⟨he, fun ts => by rw [he]⟩

/-- Witness for C3: `sound:1,2,3;` arriving while the default sequence is
playing from step index 12. -/
theorem sound_command_replaces_cursor_witness :
    handleFrame 7 (("sound:".toList) ++ ("1,2,3;".toList))
        { initState with playSound := true, toneIndex := 12 } =
      { initState with playSound := true, toneIndex := 0,
                       soundSequence := ("1,2,3;".toList) } := by
  have h := (sound_command_replaces_cursor 7 ("1,2,3;".toList)
    { initState with playSound := true, toneIndex := 12 } rfl (by decide) (by decide)).1
  rw [h]

/-- C8: a `poti:on` frame while mapping mode is already on, or `poti:off`
while it is already off, leaves the whole state unchanged — in particular the
`persistPotiPending` flag and the `persistPotiAt` debounce due-time are not
touched. -/
theorem poti_same_state_noop :
    (∀ (now : Nat) (st : FirmwareState), st.potiControl = true →
      handleFrame now ("poti:on".toList) st = st) ∧
    (∀ (now : Nat) (st : FirmwareState), st.potiControl = false →
      handleFrame now ("poti:off".toList) st = st) := by
  constructor
  · intro now st h
    unfold handleFrame
    rw [if_neg (by decide), if_pos rfl, h, if_neg (by decide)]
  · intro now st h
    unfold handleFrame
    rw [if_neg (by decide), if_neg (by decide), if_pos rfl, h, if_neg (by decide)]

/-- Witness for C8: a repeated `poti:on` at `millis() = 5` on a state whose
mapping mode is already on (with a debounce due-time of 3 from an earlier
toggle) changes nothing, and likewise `poti:off` while already off. -/
theorem poti_same_state_noop_witness :
    handleFrame 5 ("poti:on".toList)
        { initState with potiControl := true, persistPotiPending := true, persistPotiAt := 3 } =
      { initState with potiControl := true, persistPotiPending := true, persistPotiAt := 3 } ∧
    handleFrame 5 ("poti:off".toList) initState = initState :=
  ⟨poti_same_state_noop.1 5 _ rfl, poti_same_state_noop.2 5 initState rfl⟩

/-- C10 counterexample: for the frame `servo:2:x` the channel index parses but
the value field does not (`sscanf` returns 1 and `val` keeps its initial 0),
and the stored target of channel 2 is overwritten with 0 — not left unchanged
as the claim states. -/
theorem missing_value_counterexample :
    (handleFrame 0 ("servo:2:x".toList) initState).servoTargets = [90, 90, 0, 90, 90, 90] ∧
    initState.servoTargets = [90, 90, 90, 90, 90, 90] ∧
    ¬((handleFrame 0 ("servo:2:x".toList) initState).servoTargets
        = initState.servoTargets) := by
  refine ⟨rfl, rfl, ?_⟩
  decide

/-- C10 as amended: when the index of a `servo:`/`led:` frame parses and is in
range but the value field is missing or unparsable, the addressed channel is
still written — with the parse default 0: the servo target becomes
`constrain(0,0,180) = 0` and the LED is switched off. -/
theorem missing_value_defaults_zero (now : Nat) (p q : List Char) (st : FirmwareState)
    (idxS idxL : Int) (hp : p.length ≤ 122) (hq : q.length ≤ 124)
    (hsp : scanDD p = ⟨1, idxS, 0⟩) (hsq : scanDD q = ⟨1, idxL, 0⟩) :
    (0 ≤ idxS → idxS < numServos →
      handleFrame now (("servo:".toList) ++ p) st =
        { st with servoTargets := st.servoTargets.set idxS.toNat 0 }) ∧
    (0 ≤ idxL → idxL < numLeds →
      handleFrame now (("led:".toList) ++ q) st =
        { st with ledStates := st.ledStates.set idxL.toNat false }) := by
  constructor
  · intro h0 h1
    rw [handleFrame_servo_frame now p st hp, hsp]
    rw [if_pos (show 1 ≤ (ScanDD.mk 1 idxS 0).count from Nat.le_refl 1)]
    rw [if_pos (show 0 ≤ (ScanDD.mk 1 idxS 0).idx ∧ (ScanDD.mk 1 idxS 0).idx < numServos
      from ⟨h0, h1⟩)]
    rfl
  · intro h0 h1
    rw [handleFrame_led_frame now q st hq, hsq]
    rw [if_pos (show 1 ≤ (ScanDD.mk 1 idxL 0).count from Nat.le_refl 1)]
    rw [if_pos (show 0 ≤ (ScanDD.mk 1 idxL 0).idx ∧ (ScanDD.mk 1 idxL 0).idx < numLeds
      from ⟨h0, h1⟩)]
    rfl

/-- Witness for the amended C10: `servo:2:x` zeroes servo 2's target and
`led:1` (value field absent) switches LED 1 off. -/
theorem missing_value_defaults_zero_witness :
    handleFrame 0 (("servo:".toList) ++ ("2:x".toList))
        { initState with servoTargets := [10, 20, 30, 40, 50, 60] } =
      { initState with servoTargets := [10, 20, 0, 40, 50, 60] } ∧
    handleFrame 0 (("led:".toList) ++ ("1".toList))
        { initState with ledStates := [true, true, true] } =
      { initState with ledStates := [true, false, true] } := by
  constructor
  · have h := (missing_value_defaults_zero 0 ("2:x".toList) ("1".toList)
      { initState with servoTargets := [10, 20, 30, 40, 50, 60] } 2 1
      (by decide) (by decide) (by decide) (by decide)).1 (by decide) (by decide)
    rw [h]
    rfl
  · have h := (missing_value_defaults_zero 0 ("2:x".toList) ("1".toList)
      { initState with ledStates := [true, true, true] } 2 1
      (by decide) (by decide) (by decide) (by decide)).2 (by decide) (by decide)
    rw [h]
    rfl

/-- C7: a `filter:<float>` frame whose parsed value is outside [0,1] leaves
the coefficient (and the whole state) unchanged; a value inside [0,1] is
stored; consequently the coefficient stays within [0,1] under every inbound
frame, starting from the boot value 0.9. -/
theorem filter_command_range :
    (∀ (now : Nat) (p : List Char) (st : FirmwareState) (f : ℚ),
      p.length ≤ 121 → scanFloat p = some f →
      ((f < 0 ∨ 1 < f) → handleFrame now (("filter:".toList) ++ p) st = st) ∧
      (0 ≤ f → f ≤ 1 →
        handleFrame now (("filter:".toList) ++ p) st = { st with filter := f })) ∧
    (∀ (now : Nat) (buf : List Char) (st : FirmwareState),
      0 ≤ st.filter → st.filter ≤ 1 →
      0 ≤ (handleFrame now buf st).filter ∧ (handleFrame now buf st).filter ≤ 1) ∧
    (0 ≤ initState.filter ∧ initState.filter ≤ 1) := by
  refine ⟨?_, ?_, by norm_num [initState]⟩
  · intro now p st f hp hscan
    constructor
    · intro hout
      rw [handleFrame_filter_frame now p st hp, hscan]
      exact if_neg (by
        rintro ⟨ha, hb⟩
        rcases hout with h | h
        · exact absurd ha (not_le.mpr h)
        · exact absurd hb (not_le.mpr h))
    · intro h0 h1
      rw [handleFrame_filter_frame now p st hp, hscan]
      exact if_pos ⟨h0, h1⟩
  · intro now buf st hl hr
    unfold handleFrame
    repeat' split
    all_goals simp_all [apply_ite FirmwareState.filter]

/-- Witness for C7: `filter:0.5` is stored, `filter:1.5` is ignored. -/
theorem filter_command_range_witness :
    handleFrame 0 (("filter:".toList) ++ ("0.5".toList)) initState =
      { initState with filter := 1 / 2 } ∧
    handleFrame 0 (("filter:".toList) ++ ("1.5".toList)) initState = initState := by
  have hs1 : scanFloat ("0.5".toList) = some (1 / 2) := by
    show scanFloat ['0', '.', '5'] = some (1 / 2)
    simp [scanFloat, scanFloatAux, natOfDigits, isDigitC, isSpaceC, List.takeWhile,
      List.dropWhile]
    norm_num
  have hs2 : scanFloat ("1.5".toList) = some (3 / 2) := by
    show scanFloat ['1', '.', '5'] = some (3 / 2)
    simp [scanFloat, scanFloatAux, natOfDigits, isDigitC, isSpaceC, List.takeWhile,
      List.dropWhile]
    norm_num
  constructor
  · have h := (filter_command_range.1 0 ("0.5".toList) initState (1 / 2)
      (by decide) hs1).2 (by norm_num) (by norm_num)
    rw [h]
  · exact (filter_command_range.1 0 ("1.5".toList) initState (3 / 2)
      (by decide) hs2).1 (Or.inr (by norm_num))

/-- C2: on the sequence `1000,80,200;800,60,300;` the sequencer emits 1000 Hz
at duty `map(80,0,100,0,255) = 204` and stays there until 200 ms have passed,
then 800 Hz at duty 153 until 300 ms more have passed, then mutes and returns
to IDLE with the cursor rewound; in general an activated step with positive
frequency programs that frequency at the scaled volume, a zero-frequency step
mutes but still schedules the step's duration, and a step whose comma
separators cannot be found stops playback defensively (muted, IDLE). -/
theorem tone_sequence_playback :
    ((updateToneSequence 0 toneDemoStart).buzzerFreq = 1000 ∧
     (updateToneSequence 0 toneDemoStart).buzzerDuty = 204 ∧
     (updateToneSequence 0 toneDemoStart).nextToneTime = 200 ∧
     (updateToneSequence 0 toneDemoStart).playSound = true ∧
     (updateToneSequence 0 toneDemoStart).toneIndex = 12) ∧
    (∀ t : Nat, t < 200 →
      updateToneSequence t (updateToneSequence 0 toneDemoStart) =
        updateToneSequence 0 toneDemoStart) ∧
    ((updateToneSequence 200 (updateToneSequence 0 toneDemoStart)).buzzerFreq = 800 ∧
     (updateToneSequence 200 (updateToneSequence 0 toneDemoStart)).buzzerDuty = 153 ∧
     (updateToneSequence 200 (updateToneSequence 0 toneDemoStart)).nextToneTime = 500 ∧
     (updateToneSequence 200 (updateToneSequence 0 toneDemoStart)).playSound = true ∧
     (updateToneSequence 200 (updateToneSequence 0 toneDemoStart)).toneIndex = 23) ∧
    (∀ t : Nat, t < 500 →
      updateToneSequence t (updateToneSequence 200 (updateToneSequence 0 toneDemoStart)) =
        updateToneSequence 200 (updateToneSequence 0 toneDemoStart)) ∧
    ((updateToneSequence 500
        (updateToneSequence 200 (updateToneSequence 0 toneDemoStart))).playSound = false ∧
     (updateToneSequence 500
        (updateToneSequence 200 (updateToneSequence 0 toneDemoStart))).buzzerDuty = 0 ∧
     (updateToneSequence 500
        (updateToneSequence 200 (updateToneSequence 0 toneDemoStart))).toneIndex = 0) ∧
    (∀ (now : Nat) (st : FirmwareState) (freq vol dur : Int) (ni : Nat),
      st.playSound = true → st.nextToneTime ≤ now →
      st.toneIndex < st.soundSequence.length →
      toneStepParse st.soundSequence st.toneIndex = some (freq, vol, dur, ni) →
      (0 < freq →
        updateToneSequence now st =
          { st with buzzerFreq := freq, buzzerDuty := arduinoMap vol 0 100 0 255,
                    nextToneTime := (((now : Int) + dur).emod (2 ^ 32)).toNat,
                    toneIndex := ni }) ∧
      (freq = 0 →
        updateToneSequence now st =
          { st with buzzerDuty := 0,
                    nextToneTime := (((now : Int) + dur).emod (2 ^ 32)).toNat,
                    toneIndex := ni })) ∧
    (∀ (now : Nat) (st : FirmwareState),
      st.playSound = true → st.nextToneTime ≤ now →
      st.toneIndex < st.soundSequence.length →
      toneStepParse st.soundSequence st.toneIndex = none →
      updateToneSequence now st = { st with buzzerDuty := 0, playSound := false }) := by
  refine ⟨⟨rfl, rfl, rfl, rfl, rfl⟩, ?_, ⟨rfl, rfl, rfl, rfl, rfl⟩, ?_, ⟨rfl, rfl, rfl⟩,
    ?_, ?_⟩
  · intro t ht
    apply updateToneSequence_waiting
    right
    have hn : (updateToneSequence 0 toneDemoStart).nextToneTime = 200 := rfl
    rw [hn]
    exact ht
  · intro t ht
    apply updateToneSequence_waiting
    right
    have hn : (updateToneSequence 200 (updateToneSequence 0 toneDemoStart)).nextToneTime = 500 :=
      rfl
    rw [hn]
    exact ht
  · intro now st freq vol dur ni hplay hdue hidx hparse
    constructor
    · intro hf
      rw [updateToneSequence_step now st freq vol dur ni hplay hdue hidx hparse, if_pos hf]
    · intro hf
      rw [updateToneSequence_step now st freq vol dur ni hplay hdue hidx hparse,
        if_neg (show ¬0 < freq from by omega)]
  · intro now st hplay hdue hidx hparse
    exact updateToneSequence_malformed now st hplay hdue hidx hparse

/-- Witness for C2: the mid-step tick at 100 ms changes nothing, the first
step of the demo sequence programs 1000 Hz at duty 204 for 200 ms, and the
separator-free sequence `1000` stops playback defensively. -/
theorem tone_sequence_playback_witness :
    updateToneSequence 100 (updateToneSequence 0 toneDemoStart) =
      updateToneSequence 0 toneDemoStart ∧
    updateToneSequence 0 toneDemoStart =
      { toneDemoStart with buzzerFreq := 1000, buzzerDuty := arduinoMap 80 0 100 0 255,
                           nextToneTime := (((0 : Nat) : Int) + 200).emod (2 ^ 32) |>.toNat,
                           toneIndex := 12 } ∧
    updateToneSequence 0 malformedDemoStart =
      { malformedDemoStart with buzzerDuty := 0, playSound := false } := by
  refine ⟨tone_sequence_playback.2.1 100 (by decide), ?_, ?_⟩
  · exact (tone_sequence_playback.2.2.2.2.2.1 0 toneDemoStart 1000 80 200 12 rfl (by decide)
      (by decide) (by decide)).1 (by decide)
  · exact tone_sequence_playback.2.2.2.2.2.2 0 malformedDemoStart rfl (by decide)
      (by decide) (by decide)

/-- C5 counterexample: the step `1000,200,100;` carries volume 200; the duty
written to the buzzer is `map(200,0,100,0,255) = 510`, outside the 8-bit
range [0,255] — the firmware does not clamp the volume to [0,100]. -/
theorem volume_clamp_counterexample :
    (updateToneSequence 0 volumeDemoStart).buzzerDuty = 510 ∧
    ¬((updateToneSequence 0 volumeDemoStart).buzzerDuty ≤ 255) := by
  decide

/-- C5 as amended: the volume of an activated step is not clamped; the duty
written is exactly `map(vol,0,100,0,255)`, and only when the step's volume
already lies within [0,100] is the resulting duty guaranteed to lie within
the 8-bit range [0,255]. -/
theorem volume_scaling_unclamped :
    (∀ (now : Nat) (st : FirmwareState) (freq vol dur : Int) (ni : Nat),
      st.playSound = true → st.nextToneTime ≤ now →
      st.toneIndex < st.soundSequence.length →
      toneStepParse st.soundSequence st.toneIndex = some (freq, vol, dur, ni) →
      0 < freq →
      (updateToneSequence now st).buzzerDuty = arduinoMap vol 0 100 0 255) ∧
    (∀ vol : Int, 0 ≤ vol → vol ≤ 100 →
      0 ≤ arduinoMap vol 0 100 0 255 ∧ arduinoMap vol 0 100 0 255 ≤ 255) := by
  constructor
  · intro now st freq vol dur ni hplay hdue hidx hparse hf
    rw [updateToneSequence_step now st freq vol dur ni hplay hdue hidx hparse, if_pos hf]
  · intro vol h0 h1
    have hm : arduinoMap vol 0 100 0 255 = (vol * 255).tdiv 100 := by
      unfold arduinoMap
      norm_num
    rw [hm]
    have ha : (0 : Int) ≤ vol * 255 := mul_nonneg h0 (by omega)
    constructor
    · exact Int.tdiv_nonneg ha (by omega)
    · rw [Int.tdiv_eq_ediv ha (by omega)]
      have h2 := Int.ediv_le_ediv (show (0 : Int) < 100 from by omega)
        (show vol * 255 ≤ 25500 from by nlinarith)
      have h3 : (25500 : Int) / 100 = 255 := by decide
      rw [h3] at h2
      exact h2

/-- Witness for the amended C5: the first step of the demo sequence writes
duty `map(80,...) = 204`, and volume 80 is scaled into [0,255]. -/
theorem volume_scaling_unclamped_witness :
    (updateToneSequence 0 toneDemoStart).buzzerDuty = arduinoMap 80 0 100 0 255 ∧
    (0 ≤ arduinoMap 80 0 100 0 255 ∧ arduinoMap 80 0 100 0 255 ≤ 255) :=
  ⟨volume_scaling_unclamped.1 0 toneDemoStart 1000 80 200 12 rfl (by decide) (by decide)
      (by decide) (by decide),
   volume_scaling_unclamped.2 80 (by decide) (by decide)⟩

/-- C6 is wrong about the code: the switch trigger (lines 713-720) is
level-triggered with only a `!playSound` guard.  Holding the switch at LOW
(active) through a complete playback re-triggers the sequence: here the
switch reading stays 0 for the whole trace, the first check starts playback,
the 10 ms one-step sequence finishes (playing flag back to false), and the
very next check starts playback again — not "exactly once per assertion". -/
theorem switch_retrigger_trace :
    (switchSoundCheck 0 switchDemoStart).playSound = true ∧
    (switchSoundCheck 0 switchDemoStart).toneIndex = 0 ∧
    (updateToneSequence 10
        (updateToneSequence 0 (switchSoundCheck 0 switchDemoStart))).playSound = false ∧
    (switchSoundCheck 0
        (updateToneSequence 10
          (updateToneSequence 0 (switchSoundCheck 0 switchDemoStart)))).playSound = true := by
  decide

/-- C4 counterexample: the `ws.onEvent` handler sends nothing back — neither
on `WS_EVT_CONNECT` nor on the first data frame.  On the concrete first frame
`servo:0:90` from a fresh client the list of per-client messages is empty; in
particular it does not contain the 6 `servo:` replays plus `poti:` plus
`filter:` messages (8 in total) that the claim requires. -/
theorem connect_replay_counterexample :
    (wsOnEvent true 0 [] initState).sent = [] ∧
    (wsOnEvent false 0 ("servo:0:90".toList) initState).sent = [] ∧
    ¬((wsOnEvent false 0 ("servo:0:90".toList) initState).sent.length = 8) := by
  refine ⟨rfl, rfl, ?_⟩
  decide

/-- C4 as amended: the firmware never replays state to a client — the
`ws.onEvent` handler performs no per-client send on any event or frame (the
connect branch only logs; the only outbound traffic is the periodic sensor
broadcast in `loop()`). -/
theorem ws_handler_sends_nothing (isConnectEvt : Bool) (now : Nat) (frame : List Char)
    (st : FirmwareState) :
    (wsOnEvent isConnectEvt now frame st).sent = [] := by
  unfold wsOnEvent
  split <;> rfl

/-- C9: the per-tick low-pass update `current = a*current + (1-a)*target`
with coefficient `a` in [0,1] moves the current angle monotonically toward a
constant target `T` and never overshoots: each iterate lies between the
previous iterate and `T`, on both sides of `T`. -/
theorem filter_monotone_convergence (a T C : ℚ) (h0 : 0 ≤ a) (h1 : a ≤ 1) (n : Nat) :
    (C ≤ T → filterIterate a T C n ≤ filterIterate a T C (n + 1) ∧
      filterIterate a T C (n + 1) ≤ T) ∧
    (T ≤ C → T ≤ filterIterate a T C (n + 1) ∧
      filterIterate a T C (n + 1) ≤ filterIterate a T C n) := by
  constructor
  · intro hC
    have hn := filterIterate_le a T C h0 h1 hC n
    exact ⟨(loopFilterStep_between_le a T _ h0 h1 hn).1,
           (loopFilterStep_between_le a T _ h0 h1 hn).2⟩
  · intro hC
    have hn := filterIterate_ge a T C h0 h1 hC n
    exact ⟨(loopFilterStep_between_ge a T _ h0 h1 hn).1,
           (loopFilterStep_between_ge a T _ h0 h1 hn).2⟩

/-- Witness for C9 at `a = 9/10` (the boot filter value), `T = 180`,
`C = 90`, `n = 0`. -/
theorem filter_monotone_convergence_witness :
    (0 : ℚ) ≤ 9 / 10 ∧ (9 : ℚ) / 10 ≤ 1 ∧
    (((90 : ℚ) ≤ 180 → filterIterate (9 / 10) 180 90 0 ≤ filterIterate (9 / 10) 180 90 1 ∧
        filterIterate (9 / 10) 180 90 1 ≤ 180) ∧
     ((180 : ℚ) ≤ 90 → (180 : ℚ) ≤ filterIterate (9 / 10) 180 90 1 ∧
        filterIterate (9 / 10) 180 90 1 ≤ filterIterate (9 / 10) 180 90 0)) :=
  ⟨by norm_num, by norm_num,
   filter_monotone_convergence (9 / 10) 180 90 (by norm_num) (by norm_num) 0⟩
